import Mathlib

/-!
Verification of the retrieval-plugin server (src/server/main.py, src/models/api.py).

The HTTP handlers of src/server/main.py are embedded as pure Lean functions.
External capabilities (the datastore backend, the chat model, pydantic parsing,
file text extraction) are passed in as abstract function parameters; their
internal failures are modelled as `Except Exn` values, where `Exn` is the
string rendering of the Python exception (the only part of an exception the
handlers observe, via `str(e)` and logging).  A handler that raises
`HTTPException(status_code, detail)` is modelled as returning
`Except.error ⟨status_code, detail⟩`.  The datastore handle is modelled as a
record of operations threading an abstract state, so that frame properties
(which handler touches the store, and when) are expressible.
-/

namespace RetrievalPlugin

/-- An internal exception, identified by its message string. -/
abbrev Exn := String

/-- Modelled from the spec: the source kind of a document (models.models is not
in src/; spec section 3 lists the metadata fields). -/
inductive Source where
  | email
  | file
  | chat
deriving DecidableEq, Repr

/-- Modelled from the spec: structured document metadata with source kind,
source-specific id, URL, creation date and free-form author (spec section 3). -/
structure DocumentMetadata where
  source : Option Source := none
  source_id : Option String := none
  url : Option String := none
  created_at : Option String := none
  author : Option String := none
deriving DecidableEq, Repr

/-- Modelled from the spec: a document with optional identifier, raw text and
metadata (spec section 3). -/
structure Document where
  id : Option String := none
  text : String
  metadata : Option DocumentMetadata := none
deriving DecidableEq, Repr

/-- Modelled from the spec: a metadata filter; the handlers in
src/server/main.py only observe its presence, never its fields. -/
structure DocumentMetadataFilter where
  source : Option Source := none
  document_id : Option String := none
deriving DecidableEq, Repr

/-- Modelled from the spec: a natural-language query with optional filter and
optional result bound (spec section 3). -/
structure Query where
  query : String
  filter : Option DocumentMetadataFilter := none
  top_k : Option Nat := none
deriving DecidableEq, Repr

/-- Modelled from the spec: a stored chunk with its text and similarity score;
the handlers in src/server/main.py only observe the text field. -/
structure DocumentChunkWithScore where
  id : Option String := none
  text : String
  score : Int := 0
deriving DecidableEq, Repr

/-- Modelled from the spec: the originating query paired with its ordered
retrieved chunks (spec section 3). -/
structure QueryResult where
  query : String
  results : List DocumentChunkWithScore
deriving DecidableEq, Repr

/-- models/api.py: UpsertRequest. -/
structure UpsertRequest where
  documents : List Document
deriving DecidableEq, Repr

/-- models/api.py: UpsertResponse. -/
structure UpsertResponse where
  ids : List String
deriving DecidableEq, Repr

/-- models/api.py: QueryRequest. -/
structure QueryRequest where
  queries : List Query
deriving DecidableEq, Repr

/-- models/api.py: QueryResponse. -/
structure QueryResponse where
  results : List QueryResult
deriving DecidableEq, Repr

/-- models/api.py: GPT4TestRequest. -/
structure GPT4TestRequest where
  prompt : String
deriving DecidableEq, Repr

/-- models/api.py: GPT4TestResponse. -/
structure GPT4TestResponse where
  result : String
deriving DecidableEq, Repr

/-- models/api.py: AnswerRequest. -/
structure AnswerRequest where
  queries : List Query
  prompt : String
deriving DecidableEq, Repr

/-- models/api.py: AnswerResponse. -/
structure AnswerResponse where
  result : String
  sources : List QueryResult
deriving DecidableEq, Repr

/-- models/api.py: DeleteRequest.  `delete_all` defaults to False in the
pydantic model but a client may send null, hence `Option Bool`. -/
structure DeleteRequest where
  ids : Option (List String) := none
  filter : Option DocumentMetadataFilter := none
  delete_all : Option Bool := some false
deriving DecidableEq, Repr

/-- models/api.py: DeleteResponse. -/
structure DeleteResponse where
  success : Bool
deriving DecidableEq, Repr

/-- fastapi.HTTPException as raised by the handlers: a status code and a
detail string. -/
structure HTTPException where
  status_code : Nat
  detail : String
deriving DecidableEq, Repr

/-- langchain.schema message as used by the handlers. -/
inductive ChatMessage where
  | human (content : String)
  | ai (content : String)
  | system (content : String)
deriving DecidableEq, Repr

/-- A multipart upload; the handlers never look inside, they pass it to the
text-extraction capability. -/
structure UploadFile where
  filename : String
deriving DecidableEq, Repr

/-- The datastore capability (datastore.factory is outside src/): the three
operations the handlers call, threading an abstract backend state `σ`.
Failures are surfaced as Python exceptions, modelled as `Except.error`. -/
structure Datastore (σ : Type) where
  query : σ → List Query → (Except Exn (List QueryResult)) × σ
  upsert : σ → List Document → (Except Exn (List String)) × σ
  delete : σ → Option (List String) → Option DocumentMetadataFilter → Option Bool →
      (Except Exn Bool) × σ

/-- Python truthiness of `request.ids : Optional[List[str]]`: truthy iff
present and non-empty. -/
def idsTruthy : Option (List String) → Bool
  | none => false
  | some l => !l.isEmpty

/-- Python truthiness of `request.delete_all : Optional[bool]`: truthy iff
present and True. -/
def deleteAllTruthy : Option Bool → Bool
  | none => false
  | some b => b

/-- src/server/main.py lines 196-217: the `/delete` handler.  Rejects with 400
when none of ids, filter, delete_all is truthy (a pydantic model instance is
always truthy, so the filter is truthy iff present); otherwise forwards the
three fields to `datastore.delete` and wraps the outcome. -/
def delete {σ : Type} (datastore : Datastore σ) (st : σ) (request : DeleteRequest) :
    (Except HTTPException DeleteResponse) × σ :=
  if !(idsTruthy request.ids || request.filter.isSome || deleteAllTruthy request.delete_all) then
    (Except.error ⟨400, "One of ids, filter, or delete_all is required"⟩, st)
  else
    match datastore.delete st request.ids request.filter request.delete_all with
    | (Except.ok success, st2) => (Except.ok ⟨success⟩, st2)
    | (Except.error _, st2) => (Except.error ⟨500, "Internal Service Error"⟩, st2)

/-- How many of the three deletion discriminants of the spec are set on a
request: ids non-empty, filter present, delete_all flag true. -/
def discriminantCount (r : DeleteRequest) : Nat :=
  (if idsTruthy r.ids then 1 else 0) +
  (if r.filter.isSome then 1 else 0) +
  (if deleteAllTruthy r.delete_all then 1 else 0)

/-- A spy datastore over a call counter: every operation increments the
counter, so an unchanged counter certifies that zero store calls were made. -/
def spyStore : Datastore Nat where
  query := fun st _ => (Except.ok [], st + 1)
  upsert := fun st docs => (Except.ok (docs.map fun _ => "id"), st + 1)
  delete := fun st _ _ _ => (Except.ok true, st + 1)

/-- src/server/main.py lines 86-93: the metadata argument of `/upsert-file`.
`DocumentMetadata.parse_raw(metadata) if metadata else DocumentMetadata(source=Source.file)`,
with a bare `except` falling back to the same default.  An absent or empty
string is falsy, so parsing is not even attempted; a parse failure
(`parse_raw` returning `none`) is swallowed. -/
def metadata_obj (parse_raw : String → Option DocumentMetadata)
    (metadata : Option String) : DocumentMetadata :=
  match metadata with
  | none => { source := some Source.file }
  | some s =>
    if s = "" then { source := some Source.file }
    else
      match parse_raw s with
      | some m => m
      | none => { source := some Source.file }

/-- src/server/main.py lines 82-102: the `/upsert-file` handler.  Builds the
metadata object (with silent fallback), extracts a document from the file via
the text-extraction capability, upserts the one-element document list, and on
a store failure raises status 500 with detail the Python f-string
`f"str({e})"`, i.e. the literal text `str(` ++ the exception message ++ `)`. -/
def upsert_file {σ : Type} (parse_raw : String → Option DocumentMetadata)
    (get_document_from_file : UploadFile → DocumentMetadata → Document)
    (datastore : Datastore σ) (st : σ)
    (file : UploadFile) (metadata : Option String) :
    (Except HTTPException UpsertResponse) × σ :=
  let m := metadata_obj parse_raw metadata
  let document := get_document_from_file file m
  match datastore.upsert st [document] with
  | (Except.ok ids, st2) => (Except.ok ⟨ids⟩, st2)
  | (Except.error e, st2) =>
    (Except.error ⟨500, "str(" ++ e ++ ")"⟩, st2)

/-- src/server/main.py lines 105-117: the `/upsert` handler. -/
def upsert {σ : Type} (datastore : Datastore σ) (st : σ) (request : UpsertRequest) :
    (Except HTTPException UpsertResponse) × σ :=
  match datastore.upsert st request.documents with
  | (Except.ok ids, st2) => (Except.ok ⟨ids⟩, st2)
  | (Except.error _, st2) => (Except.error ⟨500, "Internal Service Error"⟩, st2)

/-- src/server/main.py lines 120-134: the `/query` handler mounted on the main
application. -/
def query_main {σ : Type} (datastore : Datastore σ) (st : σ) (request : QueryRequest) :
    (Except HTTPException QueryResponse) × σ :=
  match datastore.query st request.queries with
  | (Except.ok results, st2) => (Except.ok ⟨results⟩, st2)
  | (Except.error _, st2) => (Except.error ⟨500, "Internal Service Error"⟩, st2)

/-- src/server/main.py lines 137-152: the `/query` handler mounted on the
sub-application. -/
def query {σ : Type} (datastore : Datastore σ) (st : σ) (request : QueryRequest) :
    (Except HTTPException QueryResponse) × σ :=
  match datastore.query st request.queries with
  | (Except.ok results, st2) => (Except.ok ⟨results⟩, st2)
  | (Except.error _, st2) => (Except.error ⟨500, "Internal Service Error"⟩, st2)

/-- src/server/main.py lines 155-168: the `/gpt4Test` handler.  Sends the
user prompt as a single human message to the chat model; the datastore handle
is in scope (the module-level global) but the body never calls it. -/
def gpt4Test {σ : Type} (_datastore : Datastore σ)
    (chat : List ChatMessage → Except Exn String)
    (st : σ) (request : GPT4TestRequest) :
    (Except HTTPException GPT4TestResponse) × σ :=
  match chat [ChatMessage.human request.prompt] with
  | Except.ok res => (Except.ok ⟨res⟩, st)
  | Except.error _ => (Except.error ⟨500, "Internal Service Error"⟩, st)

/-- src/server/main.py lines 183-187: the grounding prompt of `/answer`.
Starts from the fixed framing literal, appends `doc.text + ". "` for each
doc of each retrieved query result in order, then appends the user prompt. -/
def finalPrompt (retrievedQueries : List QueryResult) (prompt : String) : String :=
  (retrievedQueries.foldl
    (fun acc que => que.results.foldl (fun acc2 doc => acc2 ++ (doc.text ++ ". ")) acc)
    "Given the following extracts from a collection of building codes: ")
  ++ prompt

/-- src/server/main.py lines 170-193: the `/answer` handler.  Retrieves, builds
the grounding prompt, sends it as a single human message, and wraps the model
completion with the retrieved results as sources.  The third component records
every chat invocation (the list of message lists sent to the model). -/
def answer {σ : Type} (datastore : Datastore σ)
    (chat : List ChatMessage → Except Exn String)
    (st : σ) (request : AnswerRequest) :
    (Except HTTPException AnswerResponse) × σ × List (List ChatMessage) :=
  match datastore.query st request.queries with
  | (Except.error _, st2) => (Except.error ⟨500, "Internal Service Error"⟩, st2, [])
  | (Except.ok retrievedQueries, st2) =>
    match chat [ChatMessage.human (finalPrompt retrievedQueries request.prompt)] with
    | Except.ok res =>
      (Except.ok ⟨res, retrievedQueries⟩, st2,
        [[ChatMessage.human (finalPrompt retrievedQueries request.prompt)]])
    | Except.error _ =>
      (Except.error ⟨500, "Internal Service Error"⟩, st2,
        [[ChatMessage.human (finalPrompt retrievedQueries request.prompt)]])

/-- The concatenation of each chunk text terminated by the separator ". ",
in list order. -/
def chunkTexts (l : List DocumentChunkWithScore) : String :=
  (l.map (fun doc => doc.text ++ ". ")).foldr (fun a b => a ++ b) ""

theorem chunkTexts_append (l1 l2 : List DocumentChunkWithScore) :
    chunkTexts (l1 ++ l2) = chunkTexts l1 ++ chunkTexts l2 := by
  induction l1 with
  | nil =>
    simp [chunkTexts]
  | cons d rest ih =>
    simp only [chunkTexts, List.cons_append, List.map_cons, List.foldr_cons] at *
    rw [ih]
    simp [String.append_assoc]

theorem foldl_chunks_eq (l : List DocumentChunkWithScore) (a : String) :
    l.foldl (fun acc2 doc => acc2 ++ (doc.text ++ ". ")) a = a ++ chunkTexts l := by
  induction l generalizing a with
  | nil =>
    simp [chunkTexts]
  | cons d rest ih =>
    rw [List.foldl_cons, ih]
    simp [chunkTexts, String.append_assoc]

theorem foldl_results_eq (rs : List QueryResult) (a : String) :
    rs.foldl
      (fun acc que => que.results.foldl (fun acc2 doc => acc2 ++ (doc.text ++ ". ")) acc) a
      = a ++ chunkTexts (rs.flatMap QueryResult.results) := by
  induction rs generalizing a with
  | nil =>
    simp [chunkTexts]
  | cons q rest ih =>
    simp only [List.foldl_cons, List.flatMap_cons]
    rw [ih, foldl_chunks_eq, chunkTexts_append]
    simp [String.append_assoc]

/-- The grounding prompt is the framing literal, then every retrieved chunk
text terminated by ". " in result order, then the user prompt. -/
theorem finalPrompt_eq (rs : List QueryResult) (prompt : String) :
    finalPrompt rs prompt =
      "Given the following extracts from a collection of building codes: "
        ++ chunkTexts (rs.flatMap QueryResult.results) ++ prompt := by
  unfold finalPrompt
  rw [foldl_results_eq]

/-- Claim C1, as stated, is false: a delete request with two discriminants set
(ids non-empty and delete_all true) is not rejected — it is accepted and
forwarded to the store (the spy call counter moves from 0 to 1). -/
theorem delete_two_discriminants_not_rejected :
    discriminantCount { ids := some ["a"], filter := none, delete_all := some true } = 2 ∧
    delete spyStore 0 { ids := some ["a"], filter := none, delete_all := some true }
      = (Except.ok ⟨true⟩, 1) := by
  constructor
  · rfl
  · rfl

/-- Claim C1 (amended): a delete request is forwarded to the store iff at
least one discriminant is set; with zero discriminants it is rejected with
status 400 before any store call (the store state is returned untouched), and
with at least one it is forwarded and the outcome of `datastore.delete` on the
three request fields is wrapped as the response. -/
theorem delete_guard_at_least_one {σ : Type} (ds : Datastore σ) (st : σ)
    (req : DeleteRequest) :
    (discriminantCount req = 0 →
      delete ds st req =
        (Except.error ⟨400, "One of ids, filter, or delete_all is required"⟩, st)) ∧
    (1 ≤ discriminantCount req →
      delete ds st req =
        match ds.delete st req.ids req.filter req.delete_all with
        | (Except.ok s, st2) => (Except.ok ⟨s⟩, st2)
        | (Except.error _, st2) => (Except.error ⟨500, "Internal Service Error"⟩, st2)) := by
  cases h1 : idsTruthy req.ids <;>
    cases h2 : req.filter.isSome <;>
      cases h3 : deleteAllTruthy req.delete_all <;>
        simp [delete, discriminantCount, h1, h2, h3]

/-- Witness for C1 amended: both branches at concrete requests — zero
discriminants is rejected with 400 and zero spy calls; one discriminant is
forwarded to the spy store. -/
theorem delete_guard_at_least_one_witness :
    delete spyStore 0 { ids := none, filter := none, delete_all := some false }
      = (Except.error ⟨400, "One of ids, filter, or delete_all is required"⟩, 0) ∧
    delete spyStore 0 { ids := some ["a"], filter := none, delete_all := some false }
      = (Except.ok ⟨true⟩, 1) := by
  constructor
  · exact (delete_guard_at_least_one spyStore 0
      { ids := none, filter := none, delete_all := some false }).1 (by decide)
  · exact (delete_guard_at_least_one spyStore 0
      { ids := some ["a"], filter := none, delete_all := some false }).2 (by decide)

/-- A datastore whose upsert fails with the exception message `e`. -/
def failingUpsertStore (e : Exn) : Datastore Nat where
  query := fun st _ => (Except.ok [], st + 1)
  upsert := fun st _ => (Except.error e, st + 1)
  delete := fun st _ _ _ => (Except.ok true, st + 1)

/-- A datastore whose query always returns the fixed result list `rs`. -/
def constQueryStore (rs : List QueryResult) : Datastore Nat where
  query := fun st _ => (Except.ok rs, st + 1)
  upsert := fun st docs => (Except.ok (docs.map fun _ => "id"), st + 1)
  delete := fun st _ _ _ => (Except.ok true, st + 1)

/-- A datastore whose query fails. -/
def failingQueryStore : Datastore Nat where
  query := fun st _ => (Except.error "query backend down", st + 1)
  upsert := fun st docs => (Except.ok (docs.map fun _ => "id"), st + 1)
  delete := fun st _ _ _ => (Except.ok true, st + 1)

/-- A parse capability that never succeeds. -/
def parseNone : String → Option DocumentMetadata := fun _ => none

/-- A text-extraction capability producing a fixed document carrying the
supplied metadata. -/
def gdocEx : UploadFile → DocumentMetadata → Document :=
  fun _ m => { id := none, text := "contents", metadata := some m }

/-- Two example retrieved result lists used by concrete witnesses. -/
def rsEx : List QueryResult :=
  [⟨"q1", [⟨none, "t1", 0⟩, ⟨none, "t2", 0⟩]⟩, ⟨"q2", [⟨none, "t3", 0⟩]⟩]

def rsEmptyEx : List QueryResult := [⟨"q1", []⟩, ⟨"q2", []⟩]

/-- Claim C2: the claim says every endpoint maps every internal failure to the
same fixed opaque detail; the `/upsert-file` handler instead interpolates the
exception message into the detail, so two distinct store failures produce two
distinct error details — while `/upsert` maps both to the same fixed detail. -/
theorem upsert_file_detail_depends_on_exception :
    (upsert_file parseNone gdocEx (failingUpsertStore "boom1") 0 ⟨"f.txt"⟩ none).1
      = Except.error ⟨500, "str(boom1)"⟩ ∧
    (upsert_file parseNone gdocEx (failingUpsertStore "boom2") 0 ⟨"f.txt"⟩ none).1
      = Except.error ⟨500, "str(boom2)"⟩ ∧
    ("str(boom1)" : String) ≠ "str(boom2)" ∧
    (upsert (failingUpsertStore "boom1") 0 ⟨[]⟩).1
      = Except.error ⟨500, "Internal Service Error"⟩ ∧
    (upsert (failingUpsertStore "boom2") 0 ⟨[]⟩).1
      = Except.error ⟨500, "Internal Service Error"⟩ := by
  refine ⟨rfl, rfl, ?_, rfl, rfl⟩
  decide

/-- Claim C3: the single message `/answer` sends to the model is the framing
literal, then the text of every retrieved chunk across every query result in
result order each terminated by ". ", then the original user prompt. -/
theorem answer_prompt_message {σ : Type} (ds : Datastore σ)
    (chat : List ChatMessage → Except Exn String) (st : σ) (req : AnswerRequest)
    (rs : List QueryResult) (st2 : σ)
    (h : ds.query st req.queries = (Except.ok rs, st2)) :
    (answer ds chat st req).2.2 =
      [[ChatMessage.human
        ("Given the following extracts from a collection of building codes: "
          ++ chunkTexts (rs.flatMap QueryResult.results) ++ req.prompt)]] := by
  unfold answer
  simp only [h]
  cases hc : chat [ChatMessage.human (finalPrompt rs req.prompt)] <;>
    simp [hc, finalPrompt_eq]

/-- Witness for C3 at a concrete store, request and retrieval outcome. -/
theorem answer_prompt_message_witness :
    (answer (constQueryStore rsEx) (fun _ => Except.ok "ans") 0 ⟨[], "p"⟩).2.2 =
      [[ChatMessage.human
        ("Given the following extracts from a collection of building codes: "
          ++ chunkTexts (rsEx.flatMap QueryResult.results) ++ "p")]] :=
  answer_prompt_message (constQueryStore rsEx) (fun _ => Except.ok "ans") 0 ⟨[], "p"⟩
    rsEx 1 rfl

/-- Claim C4: when retrieval returns `rs` and the model returns `txt`, the
answer response carries `txt` verbatim as result and `rs` unchanged as
sources. -/
theorem answer_result_verbatim {σ : Type} (ds : Datastore σ)
    (chat : List ChatMessage → Except Exn String) (st : σ) (req : AnswerRequest)
    (rs : List QueryResult) (st2 : σ) (txt : String)
    (h1 : ds.query st req.queries = (Except.ok rs, st2))
    (h2 : chat [ChatMessage.human (finalPrompt rs req.prompt)] = Except.ok txt) :
    (answer ds chat st req).1 = Except.ok ⟨txt, rs⟩ := by
  unfold answer
  rw [h1]
  simp [h2]

/-- Witness for C4 at a concrete store, model and request. -/
theorem answer_result_verbatim_witness :
    (answer (constQueryStore rsEx) (fun _ => Except.ok "ans") 0 ⟨[], "p"⟩).1 =
      Except.ok ⟨"ans", rsEx⟩ :=
  answer_result_verbatim (constQueryStore rsEx) (fun _ => Except.ok "ans") 0 ⟨[], "p"⟩
    rsEx 1 "ans" rfl rfl

/-- Claim C5: `/answer` succeeds iff both the retrieval call and the model
call succeed, and on failure the caller receives only the fixed 500 error,
never a result-sources pair. -/
theorem answer_failure_iff {σ : Type} (ds : Datastore σ)
    (chat : List ChatMessage → Except Exn String) (st : σ) (req : AnswerRequest) :
    ((∃ resp, (answer ds chat st req).1 = Except.ok resp) ↔
      (∃ rs st2, ds.query st req.queries = (Except.ok rs, st2) ∧
        ∃ txt, chat [ChatMessage.human (finalPrompt rs req.prompt)] = Except.ok txt)) ∧
    (∀ e, (answer ds chat st req).1 = Except.error e →
      e = ⟨500, "Internal Service Error"⟩) := by
  unfold answer
  rcases hq : ds.query st req.queries with ⟨qres, st2⟩
  cases qres with
  | error err => simp
  | ok rs =>
    cases hc : chat [ChatMessage.human (finalPrompt rs req.prompt)] with
    | error err2 => simp [hc]
    | ok txt =>
      simp [hc]

/-- Witness for C5: with a store and model that both succeed, the response is
a success; the success characterization instantiated at concrete inputs. -/
theorem answer_failure_iff_witness :
    ∃ resp, (answer (constQueryStore rsEx) (fun _ => Except.ok "ans") 0 ⟨[], "p"⟩).1
      = Except.ok resp :=
  (answer_failure_iff (constQueryStore rsEx) (fun _ => Except.ok "ans") 0 ⟨[], "p"⟩).1.mpr
    ⟨rsEx, 1, rfl, "ans", rfl⟩

/-- A metadata object distinct from the default, used by concrete witnesses. -/
def mEx : DocumentMetadata := { source := some Source.chat, author := some "alice" }

/-- A parse capability succeeding exactly on the string "good". -/
def parseEx : String → Option DocumentMetadata :=
  fun s => if s = "good" then some mEx else none

/-- Claim C6: an absent metadata string, or one that fails to parse, silently
falls back to the default metadata object with source file, the parse error
is swallowed (the upload proceeds exactly as if no metadata were supplied),
and a string that parses is used as is. -/
theorem upsert_file_metadata_fallback {σ : Type}
    (parse_raw : String → Option DocumentMetadata)
    (gdoc : UploadFile → DocumentMetadata → Document) (ds : Datastore σ) (st : σ)
    (file : UploadFile) (s : String) (m : DocumentMetadata) :
    (metadata_obj parse_raw none = { source := some Source.file }) ∧
    (parse_raw s = none →
      metadata_obj parse_raw (some s) = { source := some Source.file }) ∧
    (parse_raw s = none →
      upsert_file parse_raw gdoc ds st file (some s)
        = upsert_file parse_raw gdoc ds st file none) ∧
    (s ≠ "" → parse_raw s = some m → metadata_obj parse_raw (some s) = m) := by
  refine ⟨rfl, ?_, ?_, ?_⟩
  · intro hp
    by_cases hs : s = "" <;> simp [metadata_obj, hs, hp]
  · intro hp
    unfold upsert_file
    by_cases hs : s = "" <;> simp [metadata_obj, hs, hp]
  · intro hs hp
    simp [metadata_obj, hs, hp]

/-- Witness for C6: a failing parse falls back to the default, a succeeding
parse is used as is. -/
theorem upsert_file_metadata_fallback_witness :
    metadata_obj parseEx (some "bad") = { source := some Source.file } ∧
    metadata_obj parseEx (some "good") = mEx := by
  constructor
  · exact (upsert_file_metadata_fallback parseEx gdocEx spyStore 0 ⟨"f"⟩ "bad" mEx).2.1
      (by simp [parseEx])
  · exact (upsert_file_metadata_fallback parseEx gdocEx spyStore 0 ⟨"f"⟩ "good" mEx).2.2.2
      (by decide) (by simp [parseEx])

/-- Claim C7: assuming the store returns one result per query in input order,
the /query response is exactly the store output: length N with the i-th
element originating from the i-th input query. -/
theorem query_main_returns_store_output {σ : Type} (ds : Datastore σ) (st : σ)
    (req : QueryRequest) (rs : List QueryResult) (st2 : σ)
    (hq : ds.query st req.queries = (Except.ok rs, st2))
    (hlen : rs.length = req.queries.length)
    (hcorr : ∀ i : Fin rs.length,
      (rs.get i).query = (req.queries.get (Fin.cast hlen i)).query) :
    query_main ds st req = (Except.ok ⟨rs⟩, st2) ∧
    rs.length = req.queries.length ∧
    (∀ i : Fin rs.length,
      (rs.get i).query = (req.queries.get (Fin.cast hlen i)).query) := by
  refine ⟨?_, hlen, hcorr⟩
  unfold query_main
  simp [hq]

/-- A request of two queries and a store output matching it index by index,
used by the C7 witness. -/
def qreqEx : QueryRequest := ⟨[{ query := "a" }, { query := "b" }]⟩

def rsMatchEx : List QueryResult := [⟨"a", []⟩, ⟨"b", []⟩]

/-- Witness for C7 at a concrete conforming store and request. -/
theorem query_main_returns_store_output_witness :
    query_main (constQueryStore rsMatchEx) 0 qreqEx = (Except.ok ⟨rsMatchEx⟩, 1) :=
  (query_main_returns_store_output (constQueryStore rsMatchEx) 0 qreqEx rsMatchEx 1
    rfl rfl (by decide)).1

/-- Claim C8: the /query handler of the main application and the /query
handler of the sub-application are extensionally equal: same responses and
same error signals for every datastore behaviour and every request. -/
theorem query_main_eq_query_sub {σ : Type} (ds : Datastore σ) (st : σ)
    (req : QueryRequest) :
    query_main ds st req = query ds st req := rfl

/-- Claim C9: /gpt4Test leaves the datastore state untouched (its body makes
no store call), and on model success returns the completion verbatim for the
user prompt sent as a single human message. -/
theorem gpt4Test_frame_and_verbatim {σ : Type} (ds : Datastore σ)
    (chat : List ChatMessage → Except Exn String) (st : σ) (req : GPT4TestRequest) :
    ((gpt4Test ds chat st req).2 = st) ∧
    (∀ res, chat [ChatMessage.human req.prompt] = Except.ok res →
      (gpt4Test ds chat st req).1 = Except.ok ⟨res⟩) := by
  constructor
  · unfold gpt4Test
    cases hc : chat [ChatMessage.human req.prompt] <;> simp [hc]
  · intro res h
    unfold gpt4Test
    simp [h]

/-- Witness for C9 with the spy store: counter stays at 0 and the completion
is returned verbatim. -/
theorem gpt4Test_frame_and_verbatim_witness :
    (gpt4Test spyStore (fun _ => Except.ok "hi") 0 ⟨"p"⟩).2 = 0 ∧
    (gpt4Test spyStore (fun _ => Except.ok "hi") 0 ⟨"p"⟩).1 = Except.ok ⟨"hi"⟩ :=
  ⟨(gpt4Test_frame_and_verbatim spyStore (fun _ => Except.ok "hi") 0 ⟨"p"⟩).1,
   (gpt4Test_frame_and_verbatim spyStore (fun _ => Except.ok "hi") 0 ⟨"p"⟩).2 "hi" rfl⟩

theorem flatMap_results_nil (rs : List QueryResult)
    (hempty : ∀ r ∈ rs, r.results = []) :
    rs.flatMap QueryResult.results = [] := by
  induction rs with
  | nil => rfl
  | cons r rest ih =>
    rw [List.flatMap_cons, hempty r (by simp), ih (fun x hx => hempty x (by simp [hx]))]
    rfl

/-- When every retrieved result set is empty, the grounding prompt is the
framing literal immediately followed by the user prompt. -/
theorem finalPrompt_of_empty (rs : List QueryResult) (p : String)
    (hempty : ∀ r ∈ rs, r.results = []) :
    finalPrompt rs p =
      "Given the following extracts from a collection of building codes: " ++ p := by
  rw [finalPrompt_eq, flatMap_results_nil rs hempty]
  simp [chunkTexts]

/-- Claim C10: when retrieval succeeds with all-empty chunk lists, the model
is still invoked with exactly the framing literal followed by the user prompt,
and on model success a complete Answer is returned whose sources are those
empty-result objects. -/
theorem answer_empty_retrieval {σ : Type} (ds : Datastore σ)
    (chat : List ChatMessage → Except Exn String) (st : σ) (req : AnswerRequest)
    (rs : List QueryResult) (st2 : σ)
    (h : ds.query st req.queries = (Except.ok rs, st2))
    (hempty : ∀ r ∈ rs, r.results = []) :
    ((answer ds chat st req).2.2 =
      [[ChatMessage.human
        ("Given the following extracts from a collection of building codes: "
          ++ req.prompt)]]) ∧
    (∀ txt,
      chat [ChatMessage.human
        ("Given the following extracts from a collection of building codes: "
          ++ req.prompt)] = Except.ok txt →
      (answer ds chat st req).1 = Except.ok ⟨txt, rs⟩) := by
  have hfp := finalPrompt_of_empty rs req.prompt hempty
  constructor
  · unfold answer
    simp only [h]
    cases hc : chat [ChatMessage.human (finalPrompt rs req.prompt)] <;>
      simp [hc, hfp]
  · intro txt htxt
    rw [← hfp] at htxt
    unfold answer
    simp only [h]
    simp [htxt]

/-- Witness for C10 at a concrete store returning two empty results. -/
theorem answer_empty_retrieval_witness :
    ((answer (constQueryStore rsEmptyEx) (fun _ => Except.ok "ans") 0 ⟨[], "p"⟩).2.2 =
      [[ChatMessage.human
        ("Given the following extracts from a collection of building codes: "
          ++ "p")]]) ∧
    ((answer (constQueryStore rsEmptyEx) (fun _ => Except.ok "ans") 0 ⟨[], "p"⟩).1 =
      Except.ok ⟨"ans", rsEmptyEx⟩) :=
  ⟨(answer_empty_retrieval (constQueryStore rsEmptyEx) (fun _ => Except.ok "ans") 0
      ⟨[], "p"⟩ rsEmptyEx 1 rfl (by decide)).1,
   (answer_empty_retrieval (constQueryStore rsEmptyEx) (fun _ => Except.ok "ans") 0
      ⟨[], "p"⟩ rsEmptyEx 1 rfl (by decide)).2 "ans" rfl⟩

end RetrievalPlugin
